import Mathlib

/-!
Shallow embedding of `modelscope/hub/repository.py`.

The module under verification is a glue layer: the two facades `Repository`
and `DatasetRepository` assemble arguments and invoke an external
`GitCommandWrapper` collaborator (clone, pull, add, commit, push,
remote-URL query, token stripping, LFS handling, user-info and auth-token
configuration), plus a credential store (`ModelScopeConfig.get_token`) and
an endpoint resolver (`get_endpoint`).

We model the external collaborators by an environment `Env` (their observable
answers) and record every collaborator invocation as an `Event`; each facade
operation is a pure function returning its result together with the list of
collaborator events it emitted, in order.  Python optional strings are
`Option String` with Python truthiness (`None` and `""` falsy); arguments
whose runtime type matters (`commit_message`, `force`) are a small dynamic
value type `PyObj`.  Exceptions are modelled with `Except`.
-/

/-- Python truthiness of an optional string value: `None` and `""` are falsy. -/
def truthyOpt : Option String → Bool
  | none => false
  | some s => s != ""

/-- Dynamically typed Python value, for the arguments whose runtime type the
code inspects (`commit_message`, `force`). -/
inductive PyObj where
  | pynone
  | pystr (s : String)
  | pybool (b : Bool)
  | pyint (n : Int)
  deriving DecidableEq

/-- Python `isinstance(x, str)`. -/
def PyObj.isStr : PyObj → Bool
  | .pystr _ => true
  | _ => false

/-- Python `isinstance(x, bool)`. -/
def PyObj.isBool : PyObj → Bool
  | .pybool _ => true
  | _ => false

/-- The string carried by a `pystr` value (only used after an `isStr` guard). -/
def PyObj.strVal : PyObj → String
  | .pystr s => s
  | _ => ""

/-- One invocation of the external `GitCommandWrapper` collaborator, with the
arguments the facade passed to it.  `removeTokenFromUrl` takes an
`Option String` because the facade feeds it the raw result of the remote-URL
lookup, which is `None` when the lookup failed. -/
inductive Event where
  | isLfsInstalled
  | getRemoteUrl (dir : String)
  | removeTokenFromUrl (url : Option String)
  | clone (base_dir : String) (token : Option String) (url : String)
      (repo_name : String) (revision : Option String)
  | lfsInstall (dir : String)
  | addUserInfo (base_dir : String) (repo_name : String)
  | configAuthToken (dir : String) (token : Option String)
  | pull (dir : String)
  | add (dir : String) (all_files : Bool)
  | commit (dir : String) (message : String)
  | push (repo_dir : String) (token : Option String) (url : String)
      (local_branch : Option String) (remote_branch : Option String)
  deriving DecidableEq

/-- Observable behaviour of the external collaborators for one operation:
the credential store's saved token, the resolved endpoint, whether git-lfs is
installed, whether `os.listdir` on the local directory is non-empty, the
outcome of `get_repo_remote_url` (`.error` models a raised `GitError`), and
the (external, unconstrained) `remove_token_from_url` function applied to the
Python value handed to it. -/
structure Env where
  savedToken : Option String
  endpoint : String
  lfsInstalled : Bool
  dirNonEmpty : Bool
  remoteUrlResult : Except Unit String
  stripToken : Option String → Option String

/-- Python `os.path.split` (posix): split at the last slash; the head keeps no
trailing slashes unless it consists only of slashes. -/
def splitPath (p : String) : String × String :=
  let cs := p.data
  let tailLen := (cs.reverse.takeWhile (fun c => c ≠ '/')).length
  let i := cs.length - tailLen
  let head := cs.take i
  let tail := cs.drop i
  let headStripped :=
    if head ≠ [] ∧ head.any (fun c => c ≠ '/') then
      (head.reverse.dropWhile (fun c => c = '/')).reverse
    else head
  (String.mk headStripped, String.mk tail)

/-- Fields of a constructed `Repository` instance. -/
structure RepoState where
  model_dir : String
  model_base_dir : String
  model_repo_name : String
  auth_token : Option String
  deriving DecidableEq

/-- `Repository._get_model_id_url`: the f-string interpolation
producing the clone URL for a model id. -/
def get_model_id_url (endpoint model_id : String) : String :=
  endpoint ++ "/" ++ model_id ++ ".git"

/-- `Repository._get_remote_url` / `DatasetRepository._get_remote_url`:
query the remote URL, downgrading a raised `GitError` to `None`. -/
def get_remote_url (env : Env) : Option String :=
  match env.remoteUrlResult with
  | .ok remote => some remote
  | .error _ => none

/-- The `remote_url and remote_url == url` test of the skip-clone check
(line 58 / line 167 of the source): the stripped remote URL is truthy and
equals the computed target URL. -/
def stripMatches (env : Env) (url : String) : Bool :=
  let stripped := env.stripToken (get_remote_url env)
  truthyOpt stripped && stripped == some url

/-- Lines 60-70 of `Repository.__init__`: the clone call, the post-clone LFS
re-check and initialisation, the user-info configuration, and (when a token
is present) the auth-token configuration of the remote. -/
def Repository.clonePathEvents (env : Env) (st : RepoState) (url : String)
    (revision : Option String) : List Event :=
  [Event.clone st.model_base_dir st.auth_token url st.model_repo_name revision,
   Event.isLfsInstalled]
  ++ (if env.lfsInstalled then [Event.lfsInstall st.model_dir] else [])
  ++ [Event.addUserInfo st.model_base_dir st.model_repo_name]
  ++ (if truthyOpt st.auth_token then
        [Event.configAuthToken st.model_dir st.auth_token] else [])

/-- `Repository.__init__`: resolve the token (explicit value wins when truthy,
else the credential store), check LFS availability, compute the target URL,
skip the clone when the directory is non-empty and the stripped remote URL is
truthy and equals the target (returning early, before any configuration), and
otherwise clone and configure.  Returns the constructed state and the
collaborator events in order. -/
def Repository.init (env : Env) (model_dir clone_from : String)
    (revision : Option String) (auth_token_arg : Option String) :
    RepoState × List Event :=
  let auth_token :=
    if truthyOpt auth_token_arg then auth_token_arg else env.savedToken
  let st : RepoState :=
    ⟨model_dir, (splitPath model_dir).1, (splitPath model_dir).2, auth_token⟩
  let url := get_model_id_url env.endpoint clone_from
  let pre : List Event := [Event.isLfsInstalled]
  if env.dirNonEmpty then
    let remote_url := get_remote_url env
    let checkEvents :=
      pre ++ [Event.getRemoteUrl model_dir, Event.removeTokenFromUrl remote_url]
    if stripMatches env url then
      (st, checkEvents)
    else
      (st, checkEvents ++ Repository.clonePathEvents env st url revision)
  else
    (st, pre ++ Repository.clonePathEvents env st url revision)

/-- Errors raised by `push`. -/
inductive PushErr where
  | invalidParameter (msg : String)
  | notLogin (msg : String)
  | gitError
  deriving DecidableEq

/-- `Repository.push`: validate `commit_message` and `force`, require a truthy
token, then configure auth token and user info, read the remote URL (a raised
`GitError` propagates), and pull, add all files, commit the message, and push
`branch` to the same-named remote branch. -/
def Repository.push (env : Env) (st : RepoState) (commit_message : PyObj)
    (branch : Option String) (force : PyObj) :
    Except PushErr Unit × List Event :=
  if commit_message = PyObj.pynone ∨ commit_message.isStr = false then
    (.error (.invalidParameter "commit_message must be provided!"), [])
  else if force.isBool = false then
    (.error (.invalidParameter "force must be bool"), [])
  else if truthyOpt st.auth_token = false then
    (.error (.notLogin "Must login to push, please login first."), [])
  else
    let pre : List Event :=
      [Event.configAuthToken st.model_dir st.auth_token,
       Event.addUserInfo st.model_base_dir st.model_repo_name]
    match env.remoteUrlResult with
    | .error _ => (.error .gitError, pre ++ [Event.getRemoteUrl st.model_dir])
    | .ok url =>
        (.ok (),
         pre ++ [Event.getRemoteUrl st.model_dir,
                 Event.pull st.model_dir,
                 Event.add st.model_dir true,
                 Event.commit st.model_dir commit_message.strVal,
                 Event.push st.model_dir st.auth_token url branch branch])

/-- Fields of a constructed `DatasetRepository` instance. -/
structure DSState where
  dataset_id : String
  repo_work_dir : String
  repo_base_dir : String
  repo_name : String
  revision : Option String
  auth_token : Option String
  repo_url : String
  deriving DecidableEq

/-- `DatasetRepository._get_repo_url`: the f-string interpolation producing
the clone URL for a dataset id. -/
def get_repo_url (endpoint dataset_id : String) : String :=
  endpoint ++ "/datasets/" ++ dataset_id ++ ".git"

/-- `DatasetRepository.__init__`: records the fields, resolves the token the
same way as `Repository`, ensures the directory exists, and precomputes the
repo URL; no collaborator call is made, cloning is explicit. -/
def DatasetRepository.init (env : Env) (repo_work_dir dataset_id : String)
    (revision : Option String) (auth_token_arg : Option String) : DSState :=
  { dataset_id := dataset_id
    repo_work_dir := repo_work_dir
    repo_base_dir := (splitPath repo_work_dir).1
    repo_name := (splitPath repo_work_dir).2
    revision := revision
    auth_token :=
      if truthyOpt auth_token_arg then auth_token_arg else env.savedToken
    repo_url := get_repo_url env.endpoint dataset_id }

/-- `DatasetRepository.clone`: when the directory is non-empty, look up and
strip the remote URL and return `""` without cloning when the stripped URL is
truthy and equals the precomputed repo URL; otherwise clone at the stored
revision and return the work directory. -/
def DatasetRepository.clone (env : Env) (st : DSState) : String × List Event :=
  let cloneEvents : List Event :=
    [Event.clone st.repo_base_dir st.auth_token st.repo_url st.repo_name
       st.revision]
  if env.dirNonEmpty then
    let remote_url := get_remote_url env
    let checkEvents : List Event :=
      [Event.getRemoteUrl st.repo_work_dir, Event.removeTokenFromUrl remote_url]
    if stripMatches env st.repo_url then
      ("", checkEvents)
    else
      (st.repo_work_dir, checkEvents ++ cloneEvents)
  else
    (st.repo_work_dir, cloneEvents)

/-- `DatasetRepository.push`: same validation, token requirement, and
pull/add/commit/push sequence as `Repository.push`, on the dataset work
directory, re-reading the remote URL fresh. -/
def DatasetRepository.push (env : Env) (st : DSState) (commit_message : PyObj)
    (branch : Option String) (force : PyObj) :
    Except PushErr Unit × List Event :=
  if commit_message = PyObj.pynone ∨ commit_message.isStr = false then
    (.error (.invalidParameter "commit_message must be provided!"), [])
  else if force.isBool = false then
    (.error (.invalidParameter "force must be bool"), [])
  else if truthyOpt st.auth_token = false then
    (.error (.notLogin "Must login to push, please login first."), [])
  else
    let pre : List Event :=
      [Event.configAuthToken st.repo_work_dir st.auth_token,
       Event.addUserInfo st.repo_base_dir st.repo_name]
    match env.remoteUrlResult with
    | .error _ =>
        (.error .gitError, pre ++ [Event.getRemoteUrl st.repo_work_dir])
    | .ok remote_url =>
        (.ok (),
         pre ++ [Event.getRemoteUrl st.repo_work_dir,
                 Event.pull st.repo_work_dir,
                 Event.add st.repo_work_dir true,
                 Event.commit st.repo_work_dir commit_message.strVal,
                 Event.push st.repo_work_dir st.auth_token remote_url branch
                   branch])

deriving instance DecidableEq for Except

/-- Discriminator: is the event a clone invocation? -/
def Event.isClone : Event → Bool
  | .clone _ _ _ _ _ => true
  | _ => false

/-- Number of clone invocations in a trace. -/
def cloneCount (tr : List Event) : Nat := (tr.filter Event.isClone).length

/-- Discriminator: is the event an `add_user_info` invocation? -/
def Event.isAddUserInfo : Event → Bool
  | .addUserInfo _ _ => true
  | _ => false

/-- Discriminator: is the event a `config_auth_token` invocation? -/
def Event.isConfigAuthToken : Event → Bool
  | .configAuthToken _ _ => true
  | _ => false

/-- Discriminator: did `push` fail with `InvalidParameter`? -/
def isInvalidParam : Except PushErr Unit → Bool
  | .error (.invalidParameter _) => true
  | _ => false

/-- The condition under which `Repository.__init__` returns early without
cloning: non-empty directory, and the stripped remote URL is truthy and
equals the computed model URL. -/
def Repository.skipsClone (env : Env) (clone_from : String) : Bool :=
  env.dirNonEmpty && stripMatches env (get_model_id_url env.endpoint clone_from)

/-- The condition under which `DatasetRepository.clone` returns `''` without
cloning: non-empty directory, and the stripped remote URL is truthy and
equals the precomputed repo URL. -/
def DatasetRepository.skipsClone (env : Env) (st : DSState) : Bool :=
  env.dirNonEmpty && stripMatches env st.repo_url

/-- A non-empty-directory environment whose remote URL matches the computed
model URL for `"org/model"` (the identity stripper: no token embedded). -/
def envMatchModel : Env :=
  { savedToken := some "tok", endpoint := "https://hub.example",
    lfsInstalled := true, dirNonEmpty := true,
    remoteUrlResult := .ok "https://hub.example/org/model.git",
    stripToken := fun u => u }


/-- A non-empty-directory environment whose remote URL matches the computed
dataset URL for `"org/ds"` (the identity stripper: no token embedded). -/
def envMatchDs : Env :=
  { savedToken := some "tok", endpoint := "https://hub.example",
    lfsInstalled := true, dirNonEmpty := true,
    remoteUrlResult := .ok "https://hub.example/datasets/org/ds.git",
    stripToken := fun u => u }

/-- An empty-directory environment with a saved token and a successful
remote-URL lookup. -/
def envFresh : Env :=
  { savedToken := some "tok", endpoint := "https://hub.example",
    lfsInstalled := true, dirNonEmpty := false,
    remoteUrlResult := .ok "https://hub.example/org/model.git",
    stripToken := fun u => u }

/-- A non-empty-directory environment whose remote-URL lookup raises
`GitError`. -/
def envLookupFail : Env :=
  { savedToken := some "tok", endpoint := "https://hub.example",
    lfsInstalled := false, dirNonEmpty := true,
    remoteUrlResult := .error (), stripToken := fun u => u }

/-- An environment with no explicit token and no saved token. -/
def envNoToken : Env :=
  { savedToken := none, endpoint := "https://hub.example",
    lfsInstalled := true, dirNonEmpty := false,
    remoteUrlResult := .ok "https://hub.example/org/model.git",
    stripToken := fun u => u }

/-- A concrete constructed `Repository` state with a token. -/
def stModel : RepoState := ⟨"/tmp/m", "/tmp", "m", some "tok"⟩

/-- A concrete constructed `DatasetRepository` state with a token. -/
def stDs : DSState :=
  ⟨"org/ds", "/w/ds", "/w", "ds", some "master", some "tok",
   "https://hub.example/datasets/org/ds.git"⟩

/-- A concrete constructed `Repository` state whose resolved token is the
empty string (falsy but not `None`). -/
def stEmptyTok : RepoState := ⟨"/tmp/m", "/tmp", "m", some ""⟩

theorem get_model_id_url_ne_empty (e i : String) :
    get_model_id_url e i ≠ "" := by
  intro h
  have hlen : (get_model_id_url e i).length = 0 := by rw [h]; rfl
  have h4 : (".git" : String).length = 4 := rfl
  have h1 : ("/" : String).length = 1 := rfl
  simp [get_model_id_url, String.length_append, h4, h1] at hlen

theorem get_repo_url_ne_empty (e i : String) : get_repo_url e i ≠ "" := by
  intro h
  have hlen : (get_repo_url e i).length = 0 := by rw [h]; rfl
  have h4 : (".git" : String).length = 4 := rfl
  have h1 : ("/datasets/" : String).length = 10 := rfl
  simp [get_repo_url, String.length_append, h4, h1] at hlen

theorem truthyOpt_some_model_url (e i : String) :
    truthyOpt (some (get_model_id_url e i)) = true := by
  simp only [truthyOpt, bne_iff_ne, ne_eq]
  exact get_model_id_url_ne_empty e i

theorem truthyOpt_some_repo_url (e i : String) :
    truthyOpt (some (get_repo_url e i)) = true := by
  simp only [truthyOpt, bne_iff_ne, ne_eq]
  exact get_repo_url_ne_empty e i

theorem Repository.init_state (env : Env) (md cf : String)
    (rev tok : Option String) :
    (Repository.init env md cf rev tok).1 =
      ⟨md, (splitPath md).1, (splitPath md).2,
       if truthyOpt tok then tok else env.savedToken⟩ := by
  unfold Repository.init
  by_cases hd : env.dirNonEmpty = true <;>
  by_cases hs : stripMatches env (get_model_id_url env.endpoint cf) = true <;>
  simp [hd, hs]

theorem Repository.init_trace_skip (env : Env) (md cf : String)
    (rev tok : Option String)
    (h : Repository.skipsClone env cf = true) :
    (Repository.init env md cf rev tok).2 =
      [Event.isLfsInstalled, Event.getRemoteUrl md,
       Event.removeTokenFromUrl (get_remote_url env)] := by
  unfold Repository.skipsClone at h
  rw [Bool.and_eq_true] at h
  unfold Repository.init
  simp [h.1, h.2]

theorem Repository.init_trace_noskip (env : Env) (md cf : String)
    (rev tok : Option String)
    (h : Repository.skipsClone env cf = false) :
    (Repository.init env md cf rev tok).2 =
      (if env.dirNonEmpty then
         [Event.isLfsInstalled, Event.getRemoteUrl md,
          Event.removeTokenFromUrl (get_remote_url env)]
       else [Event.isLfsInstalled])
      ++ Repository.clonePathEvents env (Repository.init env md cf rev tok).1
          (get_model_id_url env.endpoint cf) rev := by
  unfold Repository.skipsClone at h
  cases hd : env.dirNonEmpty
  · simp [Repository.init, hd]
  · rw [hd] at h
    simp only [Bool.true_and] at h
    simp [Repository.init, hd, h]

theorem DatasetRepository.clone_skip (env : Env) (st : DSState)
    (h : DatasetRepository.skipsClone env st = true) :
    DatasetRepository.clone env st =
      ("", [Event.getRemoteUrl st.repo_work_dir,
            Event.removeTokenFromUrl (get_remote_url env)]) := by
  unfold DatasetRepository.skipsClone at h
  rw [Bool.and_eq_true] at h
  unfold DatasetRepository.clone
  simp [h.1, h.2]

theorem DatasetRepository.clone_noskip (env : Env) (st : DSState)
    (h : DatasetRepository.skipsClone env st = false) :
    DatasetRepository.clone env st =
      (st.repo_work_dir,
       (if env.dirNonEmpty then
          [Event.getRemoteUrl st.repo_work_dir,
           Event.removeTokenFromUrl (get_remote_url env)]
        else [])
       ++ [Event.clone st.repo_base_dir st.auth_token st.repo_url st.repo_name
             st.revision]) := by
  unfold DatasetRepository.skipsClone at h
  cases hd : env.dirNonEmpty
  · simp [DatasetRepository.clone, hd]
  · rw [hd] at h
    simp only [Bool.true_and] at h
    simp [DatasetRepository.clone, hd, h]

/-- C1: counterexample.  On the skip path (directory non-empty, stripped
remote URL equal to the computed target, token present, no clone performed)
the constructor returns early, so the trace contains no `add_user_info` and
no `config_auth_token` invocation, refuting that those configurations are
performed on every path. -/
theorem c1_counterexample :
    truthyOpt (Repository.init envMatchModel "/tmp/m" "org/model"
        (some "master") (some "tok")).1.auth_token = true
    ∧ cloneCount (Repository.init envMatchModel "/tmp/m" "org/model"
        (some "master") (some "tok")).2 = 0
    ∧ ((Repository.init envMatchModel "/tmp/m" "org/model"
        (some "master") (some "tok")).2.all
        (fun e => !(e.isAddUserInfo || e.isConfigAuthToken))) = true := by
  decide

theorem stripMatches_of_eq (env : Env) (r url : String)
    (hok : env.remoteUrlResult = .ok r)
    (hstrip : env.stripToken (some r) = some url) (hne : url ≠ "") :
    stripMatches env url = true := by
  unfold stripMatches get_remote_url
  rw [hok]
  simp [hstrip, truthyOpt, bne_iff_ne, hne]

/-- C1 (amended): the commit-author metadata configuration (`add_user_info`)
is invoked exactly when the constructor does not take the skip path, and the
token-embedding configuration (`config_auth_token`) exactly then when the
resolved token is truthy; on the skip path (non-empty directory with
matching stripped remote URL) the constructor returns early and performs
neither. -/
theorem c1_amended_config_only_on_clone_path (env : Env) (md cf : String)
    (rev tok : Option String) :
    (Event.addUserInfo (Repository.init env md cf rev tok).1.model_base_dir
        (Repository.init env md cf rev tok).1.model_repo_name
      ∈ (Repository.init env md cf rev tok).2
      ↔ Repository.skipsClone env cf = false)
    ∧ (Event.configAuthToken md (Repository.init env md cf rev tok).1.auth_token
      ∈ (Repository.init env md cf rev tok).2
      ↔ (Repository.skipsClone env cf = false
         ∧ truthyOpt (Repository.init env md cf rev tok).1.auth_token = true)) := by
  cases hs : Repository.skipsClone env cf
  · rw [Repository.init_trace_noskip env md cf rev tok hs,
        Repository.init_state]
    cases hd : env.dirNonEmpty <;>
    by_cases hl : env.lfsInstalled = true <;>
    by_cases ht : truthyOpt (if truthyOpt tok then tok else env.savedToken)
      = true <;>
    simp [Repository.clonePathEvents, List.mem_append, hl, ht]
  · rw [Repository.init_trace_skip env md cf rev tok hs]
    simp

/-- C2: a non-empty directory whose remote URL, stripped, equals the computed
target URL leads to no clone invocation (and `DatasetRepository.clone`
returns `""`); an empty directory leads to exactly one clone invocation, with
the computed target URL and the given revision (and `DatasetRepository.clone`
returns the work directory path). -/
theorem c2_clone_exactly_when_needed (envM envD envE : Env)
    (md cf wd ds : String) (rev tok : Option String) (r s : String) :
    (envM.dirNonEmpty = true → envM.remoteUrlResult = .ok r →
      envM.stripToken (some r) = some (get_model_id_url envM.endpoint cf) →
      cloneCount (Repository.init envM md cf rev tok).2 = 0)
    ∧ (envD.dirNonEmpty = true → envD.remoteUrlResult = .ok s →
      envD.stripToken (some s)
        = some (get_repo_url envD.endpoint ds) →
      (DatasetRepository.clone envD
        (DatasetRepository.init envD wd ds rev tok)).1 = ""
      ∧ cloneCount (DatasetRepository.clone envD
          (DatasetRepository.init envD wd ds rev tok)).2 = 0)
    ∧ (envE.dirNonEmpty = false →
      cloneCount (Repository.init envE md cf rev tok).2 = 1
      ∧ Event.clone (splitPath md).1
          (if truthyOpt tok then tok else envE.savedToken)
          (get_model_id_url envE.endpoint cf) (splitPath md).2 rev
        ∈ (Repository.init envE md cf rev tok).2)
    ∧ (envE.dirNonEmpty = false →
      (DatasetRepository.clone envE
        (DatasetRepository.init envE wd ds rev tok)).1 = wd
      ∧ cloneCount (DatasetRepository.clone envE
          (DatasetRepository.init envE wd ds rev tok)).2 = 1
      ∧ Event.clone (splitPath wd).1
          (if truthyOpt tok then tok else envE.savedToken)
          (get_repo_url envE.endpoint ds) (splitPath wd).2 rev
        ∈ (DatasetRepository.clone envE
            (DatasetRepository.init envE wd ds rev tok)).2) := by
  refine ⟨fun hd hok hstrip => ?_, fun hd hok hstrip => ?_,
          fun hd => ?_, fun hd => ?_⟩
  · have hskip : Repository.skipsClone envM cf = true := by
      unfold Repository.skipsClone
      rw [hd, Bool.true_and]
      exact stripMatches_of_eq envM r _ hok hstrip
        (get_model_id_url_ne_empty _ _)
    rw [Repository.init_trace_skip envM md cf rev tok hskip]
    simp [cloneCount, Event.isClone]
  · have hskip : DatasetRepository.skipsClone envD
        (DatasetRepository.init envD wd ds rev tok) = true := by
      unfold DatasetRepository.skipsClone
      rw [hd, Bool.true_and]
      exact stripMatches_of_eq envD s _ hok
        (by simpa [DatasetRepository.init] using hstrip)
        (by simp [DatasetRepository.init]; exact get_repo_url_ne_empty _ _)
    rw [DatasetRepository.clone_skip envD _ hskip]
    simp [cloneCount, Event.isClone]
  · have hskip : Repository.skipsClone envE cf = false := by
      unfold Repository.skipsClone
      rw [hd, Bool.false_and]
    rw [Repository.init_trace_noskip envE md cf rev tok hskip,
        Repository.init_state, hd]
    constructor
    · by_cases hl : envE.lfsInstalled = true <;>
      by_cases ht : truthyOpt (if truthyOpt tok then tok else envE.savedToken)
        = true <;>
      simp [cloneCount, Repository.clonePathEvents, Event.isClone,
        List.filter_append, hl, ht]
    · simp [Repository.clonePathEvents, List.mem_append]
  · have hskip : DatasetRepository.skipsClone envE
        (DatasetRepository.init envE wd ds rev tok) = false := by
      unfold DatasetRepository.skipsClone
      rw [hd, Bool.false_and]
    rw [DatasetRepository.clone_noskip envE _ hskip, hd]
    refine ⟨by simp [DatasetRepository.init], ?_, ?_⟩
    · simp [cloneCount, Event.isClone, List.filter_append]
    · simp [DatasetRepository.init, List.mem_append]

/-- C2 witness: concrete skip and fresh-clone scenarios for both facades. -/
theorem c2_witness :
    cloneCount (Repository.init envMatchModel "/tmp/m" "org/model"
      (some "master") (some "tok")).2 = 0
    ∧ (DatasetRepository.clone envMatchDs
        (DatasetRepository.init envMatchDs "/w/ds" "org/ds" (some "master")
          none)).1 = ""
    ∧ cloneCount (Repository.init envFresh "/tmp/m" "org/model"
        (some "master") (some "tok")).2 = 1
    ∧ (DatasetRepository.clone envFresh
        (DatasetRepository.init envFresh "/w/ds" "org/ds" (some "master")
          none)).1 = "/w/ds" := by
  refine ⟨?_, ?_, ?_, ?_⟩
  · exact (c2_clone_exactly_when_needed envMatchModel envMatchDs envFresh
      "/tmp/m" "org/model" "/w/ds" "org/ds" (some "master") (some "tok")
      "https://hub.example/org/model.git"
      "https://hub.example/datasets/org/ds.git").1 (by decide) (by decide)
      (by decide)
  · exact ((c2_clone_exactly_when_needed envMatchModel envMatchDs envFresh
      "/tmp/m" "org/model" "/w/ds" "org/ds" (some "master") none
      "https://hub.example/org/model.git"
      "https://hub.example/datasets/org/ds.git").2.1 (by decide) (by decide)
      (by decide)).1
  · exact ((c2_clone_exactly_when_needed envMatchModel envMatchDs envFresh
      "/tmp/m" "org/model" "/w/ds" "org/ds" (some "master") (some "tok")
      "https://hub.example/org/model.git"
      "https://hub.example/datasets/org/ds.git").2.2.1 (by decide)).1
  · exact ((c2_clone_exactly_when_needed envMatchModel envMatchDs envFresh
      "/tmp/m" "org/model" "/w/ds" "org/ds" (some "master") none
      "https://hub.example/org/model.git"
      "https://hub.example/datasets/org/ds.git").2.2.2 (by decide)).1

/-- C3: a successful push (string message, boolean force, truthy token,
successful remote-URL read) invokes, after the idempotent configuration
calls and the remote-URL read, exactly pull, add(all files), commit, push in
that order, the commit message reaching `commit` unmodified and the branch
argument used as both local and remote branch of the push invocation, on
both facades. -/
theorem c3_push_sequence (env : Env) (st : RepoState) (dst : DSState)
    (m : String) (br : Option String) (b : Bool) (u : String)
    (htR : truthyOpt st.auth_token = true)
    (htD : truthyOpt dst.auth_token = true)
    (hok : env.remoteUrlResult = .ok u) :
    Repository.push env st (PyObj.pystr m) br (PyObj.pybool b)
      = (.ok (),
         [Event.configAuthToken st.model_dir st.auth_token,
          Event.addUserInfo st.model_base_dir st.model_repo_name,
          Event.getRemoteUrl st.model_dir,
          Event.pull st.model_dir,
          Event.add st.model_dir true,
          Event.commit st.model_dir m,
          Event.push st.model_dir st.auth_token u br br])
    ∧ DatasetRepository.push env dst (PyObj.pystr m) br (PyObj.pybool b)
      = (.ok (),
         [Event.configAuthToken dst.repo_work_dir dst.auth_token,
          Event.addUserInfo dst.repo_base_dir dst.repo_name,
          Event.getRemoteUrl dst.repo_work_dir,
          Event.pull dst.repo_work_dir,
          Event.add dst.repo_work_dir true,
          Event.commit dst.repo_work_dir m,
          Event.push dst.repo_work_dir dst.auth_token u br br]) := by
  constructor <;>
  simp [Repository.push, DatasetRepository.push, PyObj.isStr, PyObj.isBool,
    PyObj.strVal, htR, htD, hok]

/-- C3 witness: a concrete successful push on both facades. -/
theorem c3_witness :
    Repository.push envFresh stModel (PyObj.pystr "update") (some "master")
        (PyObj.pybool false)
      = (.ok (),
         [Event.configAuthToken "/tmp/m" (some "tok"),
          Event.addUserInfo "/tmp" "m",
          Event.getRemoteUrl "/tmp/m",
          Event.pull "/tmp/m",
          Event.add "/tmp/m" true,
          Event.commit "/tmp/m" "update",
          Event.push "/tmp/m" (some "tok")
            "https://hub.example/org/model.git" (some "master")
            (some "master")])
    ∧ DatasetRepository.push envFresh stDs (PyObj.pystr "update")
        (some "master") (PyObj.pybool false)
      = (.ok (),
         [Event.configAuthToken "/w/ds" (some "tok"),
          Event.addUserInfo "/w" "ds",
          Event.getRemoteUrl "/w/ds",
          Event.pull "/w/ds",
          Event.add "/w/ds" true,
          Event.commit "/w/ds" "update",
          Event.push "/w/ds" (some "tok")
            "https://hub.example/org/model.git" (some "master")
            (some "master")]) :=
  c3_push_sequence envFresh stModel stDs "update" (some "master") false
    "https://hub.example/org/model.git" (by decide) (by decide) (by decide)

/-- C4: counterexample.  `push("")` does not raise a parameter-validation
error: the empty string is a string, so validation passes and, with a token
available, the full pull/add/commit/push sequence runs, refuting that
`push("", ...)` fails with a parameter-validation error without invoking the
collaborator. -/
theorem c4_counterexample :
    (Repository.push envFresh stModel (PyObj.pystr "") (some "master")
      (PyObj.pybool false)).1 = .ok ()
    ∧ Event.pull "/tmp/m"
      ∈ (Repository.push envFresh stModel (PyObj.pystr "") (some "master")
          (PyObj.pybool false)).2
    ∧ Event.commit "/tmp/m" ""
      ∈ (Repository.push envFresh stModel (PyObj.pystr "") (some "master")
          (PyObj.pybool false)).2 := by
  decide

/-- C4 (amended): on both facades, `push` raises `InvalidParameter` before
any collaborator invocation exactly when the commit message is `None` or not
a string, or the force flag is not a boolean; in particular `push(None, ...)`
fails that way, while `push("", ...)` passes validation because the empty
string is a string. -/
theorem c4_amended_validation (env : Env) (st : RepoState) (dst : DSState)
    (m f : PyObj) (br : Option String) :
    ((isInvalidParam (Repository.push env st m br f).1 = true
        ∧ (Repository.push env st m br f).2 = [])
      ↔ (m = PyObj.pynone ∨ m.isStr = false ∨ f.isBool = false))
    ∧ ((isInvalidParam (DatasetRepository.push env dst m br f).1 = true
        ∧ (DatasetRepository.push env dst m br f).2 = [])
      ↔ (m = PyObj.pynone ∨ m.isStr = false ∨ f.isBool = false)) := by
  constructor
  · unfold Repository.push
    by_cases h1 : m = PyObj.pynone ∨ m.isStr = false
    · simp only [h1, if_pos, isInvalidParam]
      simp
      tauto
    · rw [if_neg h1]
      by_cases h2 : f.isBool = false
      · simp only [h2, if_pos, isInvalidParam]
        simp
      · rw [if_neg h2]
        push_neg at h1
        by_cases h3 : truthyOpt st.auth_token = false
        · simp [h3, isInvalidParam, h1.1, h1.2, h2]
        · rw [if_neg h3]
          cases henv : env.remoteUrlResult <;>
            simp [isInvalidParam, h1.1, h1.2, h2]
  · unfold DatasetRepository.push
    by_cases h1 : m = PyObj.pynone ∨ m.isStr = false
    · simp only [h1, if_pos, isInvalidParam]
      simp
      tauto
    · rw [if_neg h1]
      by_cases h2 : f.isBool = false
      · simp only [h2, if_pos, isInvalidParam]
        simp
      · rw [if_neg h2]
        push_neg at h1
        by_cases h3 : truthyOpt dst.auth_token = false
        · simp [h3, isInvalidParam, h1.1, h1.2, h2]
        · rw [if_neg h3]
          cases henv : env.remoteUrlResult <;>
            simp [isInvalidParam, h1.1, h1.2, h2]

/-- C5 (code behaviour at the failing input): the `force` flag, once it has
passed the boolean validation, has no effect at all — on both facades the
result and the entire collaborator trace of `push` with `force=True` equal
those with `force=False`, and in particular the collaborator push invocation
carries no force argument.  This contradicts the documented contract that
`force` selects a forced push. -/
theorem c5_force_has_no_effect (env : Env) (st : RepoState) (dst : DSState)
    (m : PyObj) (br : Option String) :
    Repository.push env st m br (PyObj.pybool true)
      = Repository.push env st m br (PyObj.pybool false)
    ∧ DatasetRepository.push env dst m br (PyObj.pybool true)
      = DatasetRepository.push env dst m br (PyObj.pybool false) := by
  constructor <;>
    simp [Repository.push, DatasetRepository.push, PyObj.isBool]

/-- C6: with no explicit token at construction and no saved token in the
credential store, `push` with a valid message and boolean force fails with
`NotLoginException` before any collaborator invocation, on both facades. -/
theorem c6_push_without_token_fails (env : Env) (md cf wd ds : String)
    (rev : Option String) (m : String) (br : Option String) (b : Bool)
    (hsaved : env.savedToken = none) :
    Repository.push env (Repository.init env md cf rev none).1
        (PyObj.pystr m) br (PyObj.pybool b)
      = (.error (.notLogin "Must login to push, please login first."), [])
    ∧ DatasetRepository.push env
        (DatasetRepository.init env wd ds rev none) (PyObj.pystr m) br
        (PyObj.pybool b)
      = (.error (.notLogin "Must login to push, please login first."), []) := by
  have h1 : (Repository.init env md cf rev none).1.auth_token = none := by
    rw [Repository.init_state]
    simp [truthyOpt, hsaved]
  have h2 : (DatasetRepository.init env wd ds rev none).auth_token = none := by
    simp [DatasetRepository.init, truthyOpt, hsaved]
  constructor <;>
    simp [Repository.push, DatasetRepository.push, h1, h2, truthyOpt,
      PyObj.isStr, PyObj.isBool]

/-- C6 witness: the concrete no-token environment. -/
theorem c6_witness :
    Repository.push envNoToken
        (Repository.init envNoToken "/tmp/m" "org/model" (some "master")
          none).1 (PyObj.pystr "update") (some "master") (PyObj.pybool false)
      = (.error (.notLogin "Must login to push, please login first."), [])
    ∧ DatasetRepository.push envNoToken
        (DatasetRepository.init envNoToken "/w/ds" "org/ds" (some "master")
          none) (PyObj.pystr "update") (some "master") (PyObj.pybool false)
      = (.error (.notLogin "Must login to push, please login first."), []) :=
  c6_push_without_token_fails envNoToken "/tmp/m" "org/model" "/w/ds" "org/ds"
    (some "master") "update" (some "master") false (by decide)

/-- C7: the computed clone URL is `endpoint/id.git` for the model facade and
`endpoint/datasets/id.git` for the dataset facade, with the spec's concrete
examples. -/
theorem c7_url_scheme :
    (∀ e i, get_model_id_url e i = e ++ "/" ++ i ++ ".git")
    ∧ (∀ e i, get_repo_url e i = e ++ "/datasets/" ++ i ++ ".git")
    ∧ get_model_id_url "https://hub.example" "org/model"
        = "https://hub.example/org/model.git"
    ∧ get_repo_url "https://hub.example" "org/ds"
        = "https://hub.example/datasets/org/ds.git" :=
  ⟨fun _ _ => rfl, fun _ _ => rfl, by decide, by decide⟩

/-- C8: when the directory is non-empty and the remote-URL lookup raises
`GitError`, the failure is not propagated: the lookup result is downgraded to
`None` ("no remote known"), the skip comparison fails (the stripper maps the
absent URL to an absent URL), and a fresh clone is attempted by both the
model constructor and the dataset clone. -/
theorem c8_lookup_failure_forces_clone (env : Env) (md cf wd ds : String)
    (rev tok : Option String)
    (hd : env.dirNonEmpty = true)
    (herr : env.remoteUrlResult = .error ())
    (hstripnone : env.stripToken none = none) :
    get_remote_url env = none
    ∧ cloneCount (Repository.init env md cf rev tok).2 = 1
    ∧ (DatasetRepository.clone env
        (DatasetRepository.init env wd ds rev tok)).1 = wd
    ∧ cloneCount (DatasetRepository.clone env
        (DatasetRepository.init env wd ds rev tok)).2 = 1 := by
  have hg : get_remote_url env = none := by simp [get_remote_url, herr]
  have hsm : ∀ url, stripMatches env url = false := by
    intro url
    simp [stripMatches, hg, hstripnone, truthyOpt]
  have hskipR : Repository.skipsClone env cf = false := by
    simp [Repository.skipsClone, hsm]
  have hskipD : DatasetRepository.skipsClone env
      (DatasetRepository.init env wd ds rev tok) = false := by
    simp [DatasetRepository.skipsClone, hsm]
  refine ⟨hg, ?_, ?_, ?_⟩
  · rw [Repository.init_trace_noskip env md cf rev tok hskipR,
        Repository.init_state, hd]
    by_cases hl : env.lfsInstalled = true <;>
    by_cases ht : truthyOpt (if truthyOpt tok then tok else env.savedToken)
      = true <;>
    simp [cloneCount, Repository.clonePathEvents, Event.isClone,
      List.filter_append, hl, ht]
  · rw [DatasetRepository.clone_noskip env _ hskipD]
    simp [DatasetRepository.init]
  · rw [DatasetRepository.clone_noskip env _ hskipD, hd]
    simp [cloneCount, Event.isClone, List.filter_append]

/-- C8 witness: the concrete failing-lookup environment. -/
theorem c8_witness :
    get_remote_url envLookupFail = none
    ∧ cloneCount (Repository.init envLookupFail "/tmp/m" "org/model"
        (some "master") (some "tok")).2 = 1
    ∧ (DatasetRepository.clone envLookupFail
        (DatasetRepository.init envLookupFail "/w/ds" "org/ds" (some "master")
          (some "tok"))).1 = "/w/ds" :=
  have h := c8_lookup_failure_forces_clone envLookupFail "/tmp/m" "org/model"
    "/w/ds" "org/ds" (some "master") (some "tok") (by decide) (by decide)
    (by decide)
  ⟨h.1, h.2.1, h.2.2.1⟩

/-- C9: a falsy explicit token (None or the empty string) is replaced by the
credential store's saved token in both constructors, and `push` raises the
authentication error whenever the resolved token is falsy — in particular
when it is the empty string, not only when it is `None`. -/
theorem c9_falsy_token_treated_as_absent (env : Env) (md cf wd ds : String)
    (rev : Option String) (arg : Option String) (st : RepoState) (m : String)
    (br : Option String) (b : Bool)
    (harg : truthyOpt arg = false)
    (hst : st.auth_token = some "") :
    (Repository.init env md cf rev arg).1.auth_token = env.savedToken
    ∧ (DatasetRepository.init env wd ds rev arg).auth_token = env.savedToken
    ∧ Repository.push env st (PyObj.pystr m) br (PyObj.pybool b)
      = (.error (.notLogin "Must login to push, please login first."), []) := by
  refine ⟨?_, ?_, ?_⟩
  · rw [Repository.init_state]
    simp [harg]
  · simp [DatasetRepository.init, harg]
  · simp [Repository.push, hst, truthyOpt, PyObj.isStr, PyObj.isBool]

/-- C9 witness: the explicit empty-string token at a concrete input. -/
theorem c9_witness :
    (Repository.init envFresh "/tmp/m" "org/model" (some "master")
      (some "")).1.auth_token = envFresh.savedToken
    ∧ (DatasetRepository.init envFresh "/w/ds" "org/ds" (some "master")
      (some "")).auth_token = envFresh.savedToken
    ∧ Repository.push envFresh stEmptyTok (PyObj.pystr "update")
        (some "master") (PyObj.pybool false)
      = (.error (.notLogin "Must login to push, please login first."), []) :=
  c9_falsy_token_treated_as_absent envFresh "/tmp/m" "org/model" "/w/ds"
    "org/ds" (some "master") (some "") stEmptyTok "update" (some "master")
    false (by decide) (by decide)

/-- C10: whenever the local directory is non-empty, the token-stripping
collaborator is invoked on the raw remote-URL lookup result — and when the
lookup raised `GitError`, that argument is `None`, i.e. the absent value is
handed to a collaborator whose contract expects a URL string rather than
being short-circuited. -/
theorem c10_strip_invoked_on_lookup_result (env : Env) (md cf wd ds : String)
    (rev tok : Option String)
    (hd : env.dirNonEmpty = true) :
    Event.removeTokenFromUrl (get_remote_url env)
      ∈ (Repository.init env md cf rev tok).2
    ∧ Event.removeTokenFromUrl (get_remote_url env)
      ∈ (DatasetRepository.clone env
          (DatasetRepository.init env wd ds rev tok)).2
    ∧ (env.remoteUrlResult = .error () →
        Event.removeTokenFromUrl none
          ∈ (Repository.init env md cf rev tok).2
        ∧ Event.removeTokenFromUrl none
          ∈ (DatasetRepository.clone env
              (DatasetRepository.init env wd ds rev tok)).2) := by
  have hR : Event.removeTokenFromUrl (get_remote_url env)
      ∈ (Repository.init env md cf rev tok).2 := by
    cases hs : Repository.skipsClone env cf
    · rw [Repository.init_trace_noskip env md cf rev tok hs, hd]
      simp
    · rw [Repository.init_trace_skip env md cf rev tok hs]
      simp
  have hD : Event.removeTokenFromUrl (get_remote_url env)
      ∈ (DatasetRepository.clone env
          (DatasetRepository.init env wd ds rev tok)).2 := by
    cases hs : DatasetRepository.skipsClone env
        (DatasetRepository.init env wd ds rev tok)
    · rw [DatasetRepository.clone_noskip env _ hs, hd]
      simp
    · rw [DatasetRepository.clone_skip env _ hs]
      simp
  refine ⟨hR, hD, fun herr => ?_⟩
  have hg : get_remote_url env = none := by simp [get_remote_url, herr]
  rw [hg] at hR hD
  exact ⟨hR, hD⟩

/-- C10 witness: the concrete failing-lookup environment, where the stripper
receives `None`. -/
theorem c10_witness :
    Event.removeTokenFromUrl none
      ∈ (Repository.init envLookupFail "/tmp/m" "org/model" (some "master")
          (some "tok")).2
    ∧ Event.removeTokenFromUrl none
      ∈ (DatasetRepository.clone envLookupFail
          (DatasetRepository.init envLookupFail "/w/ds" "org/ds"
            (some "master") (some "tok"))).2 :=
  (c10_strip_invoked_on_lookup_result envLookupFail "/tmp/m" "org/model"
    "/w/ds" "org/ds" (some "master") (some "tok") (by decide)).2.2 (by decide)
